import Mathlib

/-!
Verification of the update-service webhook (src/main.ts, src/utils.ts).

The request handler is embedded as a pure function from a request model,
a configuration (environment and startup directory listing) and a command
oracle (the exit code and stderr of each external command) to an outcome
(an HTTP response, or a thrown JavaScript error) together with the ordered
list of side effects the handler initiates (log-file writes, console
output, external command invocations).
-/

namespace UpdateService

/-- A JSON value as produced by the JavaScript JSON parser.  Numbers are
modelled as integers (the requests the claims concern carry strings). -/
inductive Json where
  | null : Json
  | bool : Bool → Json
  | num : Int → Json
  | str : String → Json
  | arr : List Json → Json
  | obj : List (String × Json) → Json
deriving Repr, BEq

/-- An entry of a FormData object: either a string field or a File
(only its filename, content type and size are kept by getRequestInfo). -/
inductive FormEntry where
  | str : String → FormEntry
  | file : String → String → Nat → FormEntry
deriving Repr, DecidableEq

/-- A directory entry as returned by Deno.readDirSync. -/
structure DirEntry where
  name : String
  isDirectory : Bool
deriving Repr, DecidableEq

/-- Server configuration: the LOG_FILE and AUTH_KEY environment values and
the startup listing of the services directory. -/
structure Config where
  logFile : String
  authKey : String
  dirEntries : List DirEntry
deriving Repr

/-- Observable side effects the handler initiates, in program order. -/
inductive Effect where
  | logWrite : String → String → Bool → Effect   -- file, content, append option
  | consoleLog : String → Effect
  | consoleError : String → Effect
  | runCommand : String → Effect                 -- Deno.Command spawn
deriving Repr, DecidableEq

/-- Output of an external command: exit code and decoded stderr. -/
structure CmdOutput where
  code : Int
  stderr : String
deriving Repr, DecidableEq

/-- The environment of external commands: what running each command string
returns.  The handler consults it for the docker pull and restart commands. -/
structure World where
  run : String → CmdOutput

/-- The model of an incoming Request.  Header names are stored lowercased,
as the JavaScript Headers object normalises them.  `jsonResult` is the
result of `req.json()` on the body text, and `formResult` the result of
`req.formData()`; both are oracles for the platform parsers, carried so
that the handler and getRequestInfo see the same parse of the same body. -/
structure Req where
  method : String
  url : String
  pathname : String
  protocol : String
  host : String
  searchParams : List (String × String)
  headers : List (String × String)
  hasBody : Bool
  bodyText : String
  jsonResult : Except String Json
  formResult : Except String (List (String × FormEntry))

/-- An HTTP response: body text and status code. -/
structure Response where
  body : String
  status : Nat
deriving Repr, DecidableEq

/-- The outcome of the handler: a response, or a thrown error (message). -/
abbrev Outcome := Except String Response

/-! ## JavaScript semantics helpers -/

/-- Lowercasing of an ASCII string (`String.prototype.toLowerCase` for the
header names and content types the handler looks at). -/
def lowerString (s : String) : String := ⟨s.data.map Char.toLower⟩

/-- `headers.get(name)`: case-insensitive header lookup (stored keys are
lowercase). -/
def getHeader (req : Req) (name : String) : Option String :=
  (req.headers.find? (fun p => p.1 = lowerString name)).map (fun p => p.2)

/-- JavaScript property access `v[k]` for a non-null JSON value: a field of
an object, `undefined` (none) otherwise.  Access on `null` throws and is
handled separately at the call sites. -/
def jsGet (v : Json) (k : String) : Option Json :=
  match v with
  | .obj fields => (fields.find? (fun p => p.1 = k)).map (fun p => p.2)
  | _ => none

/-- JavaScript truthiness of a JSON value. -/
def jsTruthy : Json → Bool
  | .null => false
  | .bool b => b
  | .num n => n != 0
  | .str s => s ≠ ""
  | .arr _ => true
  | .obj _ => true

/-- Whether a JSON value is the null value. -/
def Json.isNull : Json → Bool
  | .null => true
  | _ => false

/-- The discriminator agrees with equality to null. -/
theorem Json.isNull_iff (j : Json) : j.isNull = true ↔ j = Json.null := by
  cases j <;> simp [Json.isNull]

/-- Truthiness of a possibly-undefined value (`undefined` is falsy). -/
def optTruthy : Option Json → Bool
  | none => false
  | some v => jsTruthy v

/-- `Array.prototype.includes` on a string array: strict equality, so only
a string value can be a member. -/
def includesVal (l : List String) (v : Option Json) : Bool :=
  match v with
  | some (.str s) => l.contains s
  | _ => false

/-- JavaScript string coercion `String(v)` (template-literal semantics);
inside an array rendering, a null element becomes the empty string. -/
def jsToString : Json → String
  | .null => "null"
  | .bool b => if b then "true" else "false"
  | .num n => toString n
  | .str s => s
  | .arr xs => String.intercalate "," (xs.attach.map (fun x =>
      match x with
      | ⟨.null, _⟩ => ""
      | ⟨v, _⟩ => jsToString v))
  | .obj _ => "[object Object]"
decreasing_by
  rename_i hv
  refine lt_trans (List.sizeOf_lt_of_mem hv) ?_
  simp only [Json.arr.sizeOf_spec]
  omega

/-- Template-literal coercion of a possibly-undefined value. -/
def jsOptToString : Option Json → String
  | none => "undefined"
  | some v => jsToString v

/-! ## JSON.stringify with two-space indentation -/

/-- One hexadecimal digit. -/
def hexDigit (n : Nat) : String :=
  if n < 10 then toString n
  else if n = 10 then "a" else if n = 11 then "b" else if n = 12 then "c"
  else if n = 13 then "d" else if n = 14 then "e" else "f"

/-- JSON string escaping of one character. -/
def escapeChar (c : Char) : String :=
  if c = '\"' then "\\\""
  else if c = '\\' then "\\\\"
  else if c = '\n' then "\\n"
  else if c = '\r' then "\\r"
  else if c = '\t' then "\\t"
  else if c = '\x08' then "\\b"
  else if c = '\x0c' then "\\f"
  else if c.toNat < 32 then "\\u00" ++ hexDigit (c.toNat / 16) ++ hexDigit (c.toNat % 16)
  else String.singleton c

/-- JSON string quoting. -/
def quoteStr (s : String) : String :=
  "\"" ++ String.join (s.data.map escapeChar) ++ "\""

/-- `JSON.stringify(v, null, 2)` at nesting indentation `ind`. -/
def stringifyAt (ind : String) : Json → String
  | .null => "null"
  | .bool b => if b then "true" else "false"
  | .num n => toString n
  | .str s => quoteStr s
  | .arr [] => "[]"
  | .arr xs => "[\n" ++
      String.intercalate ",\n" (xs.attach.map (fun x =>
        ind ++ "  " ++ stringifyAt (ind ++ "  ") x.1)) ++
      "\n" ++ ind ++ "]"
  | .obj [] => "\x7b\x7d"
  | .obj fields => "\x7b\n" ++
      String.intercalate ",\n" (fields.attach.map (fun kv =>
        ind ++ "  " ++ quoteStr kv.1.1 ++ ": " ++ stringifyAt (ind ++ "  ") kv.1.2)) ++
      "\n" ++ ind ++ "\x7d"
termination_by v => sizeOf v
decreasing_by
  · refine lt_trans (List.sizeOf_lt_of_mem x.2) ?_
    simp only [Json.arr.sizeOf_spec]
    omega
  · have h1 : sizeOf kv.1 ≤ sizeOf fields := le_of_lt (List.sizeOf_lt_of_mem kv.2)
    have h2 : sizeOf kv.1.2 < sizeOf kv.1 := by
      obtain ⟨⟨k, v⟩, hm⟩ := kv
      simp only [Prod.mk.sizeOf_spec]
      omega
    simp only [Json.obj.sizeOf_spec]
    omega

/-- Top-level `JSON.stringify(v, null, 2)`. -/
def stringify2 (v : Json) : String := stringifyAt "" v

/-- `Object.fromEntries`: keys in order of first occurrence, each mapped to
the value of its last occurrence. -/
def fromEntries {α : Type} (l : List (String × α)) : List (String × α) :=
  ((l.map Prod.fst).eraseDups).filterMap (fun k =>
    match (l.reverse.find? (fun p => p.1 = k)) with
    | some p => some (k, p.2)
    | none => none)

/-- Substring test on character lists (`String.prototype.includes`). -/
def listContainsSub (s pat : List Char) : Bool :=
  match s with
  | [] => pat.isEmpty
  | _ :: rest => pat.isPrefixOf s || listContainsSub rest pat

/-- `haystack.includes(needle)` on strings. -/
def strIncludes (haystack needle : String) : Bool :=
  listContainsSub haystack.data needle.data

/-! ## getRequestInfo (src/utils.ts) -/

/-- The `body` field of the record getRequestInfo builds: null for GET and
HEAD, parsed JSON, a form-data object, or the raw body text. -/
inductive InfoBody where
  | nullBody : InfoBody
  | jsonBody : Json → InfoBody
  | formBody : List (String × FormEntry) → InfoBody
  | textBody : String → InfoBody
deriving Repr

/-- The record getRequestInfo returns, field for field. -/
structure RequestInfo where
  method : String
  url : String
  path : String
  queryParams : List (String × String)
  headers : List (String × String)
  body : InfoBody
  protocol : String
  host : String
deriving Repr

/-- The content type getRequestInfo extracts:
`headers["content-type"]?.toLowerCase() || ""`. -/
def contentTypeOf (req : Req) : String :=
  match (req.headers.find? (fun p => p.1 = "content-type")).map (fun p => p.2) with
  | some v => lowerString v
  | none => ""

/-- The multipart loop of getRequestInfo: File entries are replaced by
records of filename, type and size; `formDataObject[key] = ...` assignment
makes duplicate keys last-wins. -/
def multipartObject (entries : List (String × FormEntry)) : List (String × FormEntry) :=
  fromEntries entries

/-- The body parse of getRequestInfo, dispatching on method and content
type; a parser failure is a thrown error. -/
def infoBodyOf (req : Req) : Except String InfoBody :=
  if req.method = "GET" ∨ req.method = "HEAD" then .ok .nullBody
  else if strIncludes (contentTypeOf req) "application/json" then
    match req.jsonResult with
    | .ok j => .ok (.jsonBody j)
    | .error e => .error e
  else if strIncludes (contentTypeOf req) "application/x-www-form-urlencoded" then
    match req.formResult with
    | .ok entries => .ok (.formBody (fromEntries entries))
    | .error e => .error e
  else if strIncludes (contentTypeOf req) "multipart/form-data" then
    match req.formResult with
    | .ok entries => .ok (.formBody (multipartObject entries))
    | .error e => .error e
  else .ok (.textBody req.bodyText)

/-- getRequestInfo: extracts method, URL parts, query parameters, headers
and a parsed body; any error inside is rethrown with the
"Failed to parse request" prefix. -/
def getRequestInfo (req : Req) : Except String RequestInfo :=
  match infoBodyOf req with
  | .error msg => .error ("Failed to parse request: " ++ msg)
  | .ok b => .ok
      { method := req.method
        url := req.url
        path := req.pathname
        queryParams := fromEntries req.searchParams
        headers := req.headers
        body := b
        protocol := req.protocol
        host := req.host }

/-- The JSON value `JSON.stringify` serialises for a RequestInfo record,
fields in declaration order. -/
def infoBodyToJson : InfoBody → Json
  | .nullBody => .null
  | .jsonBody j => j
  | .formBody fields => .obj (fields.map (fun kv =>
      match kv.2 with
      | .str s => (kv.1, Json.str s)
      | .file filename ftype size => (kv.1, Json.obj
          [("filename", .str filename), ("type", .str ftype), ("size", .num size)])))
  | .textBody s => .str s

/-- RequestInfo as a JSON object. -/
def requestInfoToJson (info : RequestInfo) : Json :=
  .obj
    [("method", .str info.method),
     ("url", .str info.url),
     ("path", .str info.path),
     ("queryParams", .obj (info.queryParams.map (fun kv => (kv.1, Json.str kv.2)))),
     ("headers", .obj (info.headers.map (fun kv => (kv.1, Json.str kv.2)))),
     ("body", infoBodyToJson info.body),
     ("protocol", .str info.protocol),
     ("host", .str info.host)]

/-! ## Logger (src/utils.ts) -/

/-- The Logger class: an optional log file path. -/
structure Logger where
  logFile : Option String

/-- `formatMessage`: timestamp prefix and trailing newline. -/
def Logger.formatMessage (now message : String) : String :=
  "[" ++ now ++ "] " ++ message ++ "\n"

/-- Effects of `Logger.log`: file write when a file is configured,
console output otherwise. -/
def Logger.logEffects (l : Logger) (now message : String) : List Effect :=
  let formattedMessage := Logger.formatMessage now message
  match l.logFile with
  | some f => [.logWrite f formattedMessage true]
  | none => [.consoleLog (formattedMessage.trim)]

/-- Effects of `Logger.error`: file write when configured, and always a
console error. -/
def Logger.errorEffects (l : Logger) (now message : String) : List Effect :=
  let formattedMessage := Logger.formatMessage now ("ERROR: " ++ message)
  (match l.logFile with
   | some f => [Effect.logWrite f formattedMessage true]
   | none => []) ++ [.consoleError (formattedMessage.trim)]

/-! ## The request handler (src/main.ts) -/

/-- The hard-coded services directory. -/
def SERVICES_DIR : String := "~/projects/services"

/-- ACCEPTED_SERVICES: names of the entries of the services directory that
were directories at startup. -/
def acceptedServices (cfg : Config) : List String :=
  (cfg.dirEntries.filter (fun d => d.isDirectory)).map (fun d => d.name)

/-- ACCEPTED_TAGS, the fixed allow-list. -/
def ACCEPTED_TAGS : List String := ["release", "main"]

/-- `ACCEPTED_SERVICES.join(", ")` and the like. -/
def joinComma (l : List String) : String := String.intercalate ", " l

/-- The request handler of src/main.ts, line by line: health-check
short-circuit, Authorization header comparison (logging and 404 on
mismatch; the logging serialisation may itself throw), body presence,
JSON parse, required-field truthiness (a null body makes the property
access throw), service and tag allow-lists, then the docker pull and
docker compose restart commands with exit-code checks.  Returns the
outcome and the ordered effects. -/
def handler (cfg : Config) (w : World) (now : String) (req : Req) :
    Outcome × List Effect :=
  if req.pathname = "/health" then
    (.ok ⟨"OK", 200⟩, [])
  else if getHeader req "Authorization" ≠ some cfg.authKey then
    match getRequestInfo req with
    | .error e => (.error e, [])
    | .ok info =>
        let requestInfo := stringify2 (requestInfoToJson info)
        (.ok ⟨"Not found", 404⟩,
          [.logWrite cfg.logFile
            ("[" ++ now ++ "] Unauthorized request (404): " ++ requestInfo ++ "\n") true])
  else if !req.hasBody then
    (.ok ⟨"Need JSON body", 400⟩,
      [.logWrite cfg.logFile ("[" ++ now ++ "] Missing request body (400)\n") true])
  else
    match req.jsonResult with
    | .error errorMessage =>
        (.ok ⟨"Invalid JSON body", 400⟩,
          [.logWrite cfg.logFile
            ("[" ++ now ++ "] Invalid JSON body (400): " ++ errorMessage ++ "\n") true])
    | .ok body =>
        if body.isNull then
          (.error "Cannot read properties of null (reading service)", [])
        else if !optTruthy (jsGet body "service") || !optTruthy (jsGet body "tag") then
          (.ok ⟨"Missing service or tag in body", 400⟩,
            [.logWrite cfg.logFile
              ("[" ++ now ++ "] Missing required fields (400): " ++
                stringify2 (.obj [("body", body)]) ++ "\n") true])
        else if !includesVal (acceptedServices cfg) (jsGet body "service") then
          (.ok ⟨"Service must be one of " ++ joinComma (acceptedServices cfg), 400⟩,
            [.logWrite cfg.logFile
              ("[" ++ now ++ "] Invalid service requested (400): " ++
                jsOptToString (jsGet body "service") ++
                ". Accepted services: " ++ joinComma (acceptedServices cfg) ++ "\n") true])
        else if !includesVal ACCEPTED_TAGS (jsGet body "tag") then
          (.ok ⟨"Tag must be one of " ++ joinComma ACCEPTED_TAGS ++
              ". Did you forget to update the code and redeploy it?", 400⟩,
            [.logWrite cfg.logFile
              ("[" ++ now ++ "] Invalid tag requested (400): " ++
                jsOptToString (jsGet body "tag") ++
                ". Accepted tags: " ++ joinComma ACCEPTED_TAGS ++ "\n") true])
        else
          let service := jsOptToString (jsGet body "service")
          let tag := jsOptToString (jsGet body "tag")
          let composeFile := SERVICES_DIR ++ "/" ++ service ++ "/docker-compose.yml"
          let pullCmd := "docker pull ghcr.io/robertjshirts/" ++ service ++ ":" ++ tag
          let imageStatus := w.run pullCmd
          if imageStatus.code ≠ 0 then
            (.ok ⟨"Docker pull failed", 500⟩,
              [.runCommand pullCmd,
               .logWrite cfg.logFile
                 ("[" ++ now ++ "] Docker pull failed (500):\nError: " ++
                   imageStatus.stderr ++ "\n") true,
               .consoleError ("Docker pull failed: " ++ imageStatus.stderr)])
          else
            let restartCmd := "docker compose -f " ++ composeFile ++ " restart " ++ service
            let composeStatus := w.run restartCmd
            if composeStatus.code ≠ 0 then
              (.ok ⟨"Docker compose restart failed", 500⟩,
                [.runCommand pullCmd, .runCommand restartCmd,
                 .logWrite cfg.logFile
                   ("[" ++ now ++ "] Docker compose restart failed (500):\nError: " ++
                     composeStatus.stderr ++ "\n") true,
                 .consoleError ("Docker compose restart failed: " ++ composeStatus.stderr)])
            else
              (.ok ⟨"Success", 200⟩, [.runCommand pullCmd, .runCommand restartCmd])

/-! ## The spec-side step cascade

Modelled from the spec sentence "Control flow: parse URL → health-check
short-circuit → auth header compare → body presence/parse → field
presence → service allow-list check → tag allow-list check → external
pull command → external restart command → success response": the named
steps in their fixed order, each with an independent stopping condition,
outcome and effects; the handler is compared against the first stopping
step. -/

/-- The named processing steps, in the spec's order. -/
inductive Step where
  | health | auth | bodyPresence | jsonParse | fieldPresence
  | serviceAllow | tagAllow | pullStep | restartStep | success
deriving Repr, DecidableEq

/-- The fixed order of the steps. -/
def stepOrder : List Step :=
  [.health, .auth, .bodyPresence, .jsonParse, .fieldPresence,
   .serviceAllow, .tagAllow, .pullStep, .restartStep, .success]

/-- The parsed body the later steps look at (dummy null when the parse
failed, in which case processing stopped earlier). -/
def bodyOf (req : Req) : Json :=
  match req.jsonResult with
  | .ok b => b
  | .error _ => .null

/-- The JSON parse error message (empty when the parse succeeded). -/
def errMsgOf (req : Req) : String :=
  match req.jsonResult with
  | .ok _ => ""
  | .error e => e

/-- `body.service`. -/
def serviceField (req : Req) : Option Json := jsGet (bodyOf req) "service"

/-- `body.tag`. -/
def tagField (req : Req) : Option Json := jsGet (bodyOf req) "tag"

/-- The template rendering of `body.service`. -/
def serviceText (req : Req) : String := jsOptToString (serviceField req)

/-- The template rendering of `body.tag`. -/
def tagText (req : Req) : String := jsOptToString (tagField req)

/-- The docker pull command string. -/
def pullCmdOf (req : Req) : String :=
  "docker pull ghcr.io/robertjshirts/" ++ serviceText req ++ ":" ++ tagText req

/-- The compose file path. -/
def composeFileOf (req : Req) : String :=
  SERVICES_DIR ++ "/" ++ serviceText req ++ "/docker-compose.yml"

/-- The docker compose restart command string. -/
def restartCmdOf (req : Req) : String :=
  "docker compose -f " ++ composeFileOf req ++ " restart " ++ serviceText req

/-- Whether processing stops at a given step (when the step is reached). -/
def stepStops (cfg : Config) (w : World) (req : Req) : Step → Bool
  | .health => decide (req.pathname = "/health")
  | .auth => decide (getHeader req "Authorization" ≠ some cfg.authKey)
  | .bodyPresence => !req.hasBody
  | .jsonParse =>
      match req.jsonResult with
      | .ok _ => false
      | .error _ => true
  | .fieldPresence =>
      (bodyOf req).isNull ||
        !optTruthy (serviceField req) || !optTruthy (tagField req)
  | .serviceAllow => !includesVal (acceptedServices cfg) (serviceField req)
  | .tagAllow => !includesVal ACCEPTED_TAGS (tagField req)
  | .pullStep => decide ((w.run (pullCmdOf req)).code ≠ 0)
  | .restartStep => decide ((w.run (restartCmdOf req)).code ≠ 0)
  | .success => true

/-- The outcome when processing stops at a given step. -/
def stepOutcome (cfg : Config) (req : Req) : Step → Outcome
  | .health => .ok ⟨"OK", 200⟩
  | .auth =>
      match getRequestInfo req with
      | .error e => .error e
      | .ok _ => .ok ⟨"Not found", 404⟩
  | .bodyPresence => .ok ⟨"Need JSON body", 400⟩
  | .jsonParse => .ok ⟨"Invalid JSON body", 400⟩
  | .fieldPresence =>
      if (bodyOf req).isNull then
        .error "Cannot read properties of null (reading service)"
      else .ok ⟨"Missing service or tag in body", 400⟩
  | .serviceAllow => .ok ⟨"Service must be one of " ++ joinComma (acceptedServices cfg), 400⟩
  | .tagAllow => .ok ⟨"Tag must be one of " ++ joinComma ACCEPTED_TAGS ++
      ". Did you forget to update the code and redeploy it?", 400⟩
  | .pullStep => .ok ⟨"Docker pull failed", 500⟩
  | .restartStep => .ok ⟨"Docker compose restart failed", 500⟩
  | .success => .ok ⟨"Success", 200⟩

/-- Effects a step emits by merely executing (the two command spawns). -/
def execEffects (req : Req) : Step → List Effect
  | .pullStep => [.runCommand (pullCmdOf req)]
  | .restartStep => [.runCommand (restartCmdOf req)]
  | _ => []

/-- The extra effects emitted when processing stops at a given step. -/
def stepStopEffects (cfg : Config) (w : World) (now : String) (req : Req) :
    Step → List Effect
  | .health => []
  | .auth =>
      match getRequestInfo req with
      | .error _ => []
      | .ok info =>
          [.logWrite cfg.logFile
            ("[" ++ now ++ "] Unauthorized request (404): " ++
              stringify2 (requestInfoToJson info) ++ "\n") true]
  | .bodyPresence =>
      [.logWrite cfg.logFile ("[" ++ now ++ "] Missing request body (400)\n") true]
  | .jsonParse =>
      [.logWrite cfg.logFile
        ("[" ++ now ++ "] Invalid JSON body (400): " ++ errMsgOf req ++ "\n") true]
  | .fieldPresence =>
      if (bodyOf req).isNull then []
      else
        [.logWrite cfg.logFile
          ("[" ++ now ++ "] Missing required fields (400): " ++
            stringify2 (.obj [("body", bodyOf req)]) ++ "\n") true]
  | .serviceAllow =>
      [.logWrite cfg.logFile
        ("[" ++ now ++ "] Invalid service requested (400): " ++ serviceText req ++
          ". Accepted services: " ++ joinComma (acceptedServices cfg) ++ "\n") true]
  | .tagAllow =>
      [.logWrite cfg.logFile
        ("[" ++ now ++ "] Invalid tag requested (400): " ++ tagText req ++
          ". Accepted tags: " ++ joinComma ACCEPTED_TAGS ++ "\n") true]
  | .pullStep =>
      [.logWrite cfg.logFile
        ("[" ++ now ++ "] Docker pull failed (500):\nError: " ++
          (w.run (pullCmdOf req)).stderr ++ "\n") true,
       .consoleError ("Docker pull failed: " ++ (w.run (pullCmdOf req)).stderr)]
  | .restartStep =>
      [.logWrite cfg.logFile
        ("[" ++ now ++ "] Docker compose restart failed (500):\nError: " ++
          (w.run (restartCmdOf req)).stderr ++ "\n") true,
       .consoleError ("Docker compose restart failed: " ++ (w.run (restartCmdOf req)).stderr)]
  | .success => []

/-- The first step at which processing stops (`success` always stops). -/
def firstStop (cfg : Config) (w : World) (req : Req) : Step :=
  (stepOrder.find? (stepStops cfg w req)).getD .success

/-- The effects the cascade predicts: execution effects of every step up
to and including the first stopping one, then that step's stop effects. -/
def specEffects (cfg : Config) (w : World) (now : String) (req : Req) : List Effect :=
  ((stepOrder.takeWhile (fun s => !stepStops cfg w req s)).flatMap (execEffects req)) ++
    execEffects req (firstStop cfg w req) ++
    stepStopEffects cfg w now req (firstStop cfg w req)

/-! ## Log-file state -/

/-- Whether an effect never destroys log contents (a non-append log write
is the only destructive effect). -/
def appendOnlyEffect : Effect → Bool
  | .logWrite _ _ app => app
  | _ => true

/-- All effects of a trace are append-only. -/
def appendOnly (effs : List Effect) : Bool := effs.all appendOnlyEffect

/-- The contents of the log file after a trace of effects: an append write
adds at the end, a non-append write would replace the contents. -/
def runLog (file : String) (init : String) : List Effect → String
  | [] => init
  | .logWrite f c app :: rest =>
      runLog file (if f = file then (if app then init ++ c else c) else init) rest
  | _ :: rest => runLog file init rest

/-- After any append-only trace the prior log contents are a prefix of the
new contents: only additions at the end. -/
theorem runLog_extends (file : String) :
    ∀ (effs : List Effect), appendOnly effs = true →
      ∀ init : String, ∃ s, runLog file init effs = init ++ s := by
  intro effs
  induction effs with
  | nil =>
      intro _ init
      exact ⟨"", by simp [runLog]⟩
  | cons e rest ih =>
      intro happ init
      have hsplit : appendOnlyEffect e = true ∧ appendOnly rest = true := by
        simpa [appendOnly] using happ
      cases e with
      | logWrite f c app =>
          have ha : app = true := hsplit.1
          subst ha
          by_cases hf : f = file
          · obtain ⟨s, hs⟩ := ih hsplit.2 (init ++ c)
            refine ⟨c ++ s, ?_⟩
            simp [runLog, hf, hs, String.append_assoc]
          · obtain ⟨s, hs⟩ := ih hsplit.2 init
            refine ⟨s, ?_⟩
            simp [runLog, hf, hs]
      | consoleLog m =>
          obtain ⟨s, hs⟩ := ih hsplit.2 init
          exact ⟨s, by simp [runLog, hs]⟩
      | consoleError m =>
          obtain ⟨s, hs⟩ := ih hsplit.2 init
          exact ⟨s, by simp [runLog, hs]⟩
      | runCommand c =>
          obtain ⟨s, hs⟩ := ih hsplit.2 init
          exact ⟨s, by simp [runLog, hs]⟩

/-! ## Decomposition of the handler into the step cascade -/

/-- The handler computes exactly the outcome and effects of the first
stopping step of the spec's cascade. -/
theorem handler_decomp (cfg : Config) (w : World) (now : String) (req : Req) :
    handler cfg w now req =
      (stepOutcome cfg req (firstStop cfg w req), specEffects cfg w now req) := by
  unfold handler
  by_cases h1 : req.pathname = "/health"
  · simp [h1, firstStop, specEffects, firstStop, specEffects, stepOrder, stepStops, stepOutcome, stepStopEffects, execEffects]
  · by_cases h2 : getHeader req "Authorization" = some cfg.authKey
    · by_cases h3 : req.hasBody
      · cases hjson : req.jsonResult with
        | error e =>
            simp [h1, h2, h3, hjson, firstStop, specEffects, stepOrder, stepStops, stepOutcome,
              stepStopEffects, execEffects, errMsgOf, bodyOf]
        | ok body =>
            by_cases h4 : body.isNull = true
            · simp [h1, h2, h3, h4, hjson, firstStop, specEffects, stepOrder, stepStops, stepOutcome,
                stepStopEffects, execEffects, bodyOf]
            · by_cases h5 : (!optTruthy (jsGet body "service") || !optTruthy (jsGet body "tag")) = true
              · simp [h1, h2, h3, h4, hjson, h5, firstStop, specEffects, stepOrder, stepStops, stepOutcome,
                  stepStopEffects, execEffects, bodyOf, serviceField, tagField]
              · simp only [Bool.or_eq_true, Bool.not_eq_true', not_or, Bool.not_eq_false] at h5
                by_cases h6 : includesVal (acceptedServices cfg) (jsGet body "service")
                · by_cases h7 : includesVal ACCEPTED_TAGS (jsGet body "tag")
                  · by_cases h8 : (w.run (pullCmdOf req)).code = 0
                    all_goals
                      simp only [pullCmdOf, restartCmdOf, composeFileOf, serviceText,
                        tagText, serviceField, tagField, bodyOf, hjson] at h8
                    · by_cases h9 : (w.run (restartCmdOf req)).code = 0
                      all_goals
                        simp only [pullCmdOf, restartCmdOf, composeFileOf, serviceText,
                          tagText, serviceField, tagField, bodyOf, hjson] at h9
                      · simp [h1, h2, h3, h4, hjson, h5.1, h5.2, h6, h7, h8, h9,
                          firstStop, specEffects, firstStop, specEffects, stepOrder, stepStops, stepOutcome, stepStopEffects, execEffects,
                          bodyOf, serviceField, tagField, serviceText, tagText,
                          pullCmdOf, restartCmdOf, composeFileOf]
                      · simp [h1, h2, h3, h4, hjson, h5.1, h5.2, h6, h7, h8, h9,
                          firstStop, specEffects, firstStop, specEffects, stepOrder, stepStops, stepOutcome, stepStopEffects, execEffects,
                          bodyOf, serviceField, tagField, serviceText, tagText,
                          pullCmdOf, restartCmdOf, composeFileOf]
                    · simp [h1, h2, h3, h4, hjson, h5.1, h5.2, h6, h7, h8,
                        firstStop, specEffects, firstStop, specEffects, stepOrder, stepStops, stepOutcome, stepStopEffects, execEffects,
                        bodyOf, serviceField, tagField, serviceText, tagText,
                        pullCmdOf, restartCmdOf, composeFileOf]
                  · simp [h1, h2, h3, h4, hjson, h5.1, h5.2, h6, h7,
                      firstStop, specEffects, firstStop, specEffects, stepOrder, stepStops, stepOutcome, stepStopEffects, execEffects,
                      bodyOf, serviceField, tagField, serviceText, tagText]
                · simp [h1, h2, h3, h4, hjson, h5.1, h5.2, h6,
                    firstStop, specEffects, firstStop, specEffects, stepOrder, stepStops, stepOutcome, stepStopEffects, execEffects,
                    bodyOf, serviceField, tagField, serviceText, tagText]
      · simp [h1, h2, h3, firstStop, specEffects, firstStop, specEffects, stepOrder, stepStops, stepOutcome, stepStopEffects, execEffects]
    · cases hinfo : getRequestInfo req with
      | error e =>
          simp [h1, h2, hinfo, firstStop, specEffects, stepOrder, stepStops, stepOutcome, stepStopEffects,
            execEffects]
      | ok info =>
          simp [h1, h2, hinfo, firstStop, specEffects, stepOrder, stepStops, stepOutcome, stepStopEffects,
            execEffects]

/-- The docker pull and docker compose restart command strings are never
the same string (they differ at their eighth character). -/
theorem pullCmd_ne_restartCmd (req : Req) : pullCmdOf req ≠ restartCmdOf req := by
  intro h
  have hd := congrArg String.data h
  simp only [pullCmdOf, restartCmdOf, composeFileOf, SERVICES_DIR,
    String.data_append] at hd
  simp [List.append_assoc] at hd

/-- Execution effects (the command spawns) are never log writes. -/
theorem appendOnly_execEffects (req : Req) (s : Step) :
    appendOnly (execEffects req s) = true := by
  cases s <;> simp [execEffects, appendOnly, appendOnlyEffect]

/-- Every stop-effect log write of every step carries the append option. -/
theorem appendOnly_stepStopEffects (cfg : Config) (w : World) (now : String)
    (req : Req) (s : Step) :
    appendOnly (stepStopEffects cfg w now req s) = true := by
  cases s <;>
    simp only [stepStopEffects, appendOnly, List.all_nil, List.all_cons,
      appendOnlyEffect, Bool.and_true]
  · cases getRequestInfo req <;> simp [appendOnlyEffect]
  · split <;> simp [appendOnlyEffect]

/-- Every log write the handler performs carries the append option. -/
theorem appendOnly_handler (cfg : Config) (w : World) (now : String) (req : Req) :
    appendOnly (handler cfg w now req).2 = true := by
  rw [handler_decomp]
  simp only [specEffects, appendOnly, List.all_append, Bool.and_eq_true]
  refine ⟨⟨?_, ?_⟩, ?_⟩
  · rw [List.all_eq_true]
    intro e he
    rw [List.mem_flatMap] at he
    obtain ⟨s, _, hes⟩ := he
    have := appendOnly_execEffects req s
    rw [appendOnly, List.all_eq_true] at this
    exact this e hes
  · exact appendOnly_execEffects req (firstStop cfg w req)
  · exact appendOnly_stepStopEffects cfg w now req (firstStop cfg w req)

/-! ## Concrete fixtures -/

/-- A sample configuration: two service directories and a stray file. -/
def testConfig : Config :=
  { logFile := "log.txt", authKey := "secret",
    dirEntries := [⟨"api", true⟩, ⟨"notes.txt", false⟩, ⟨"web", true⟩] }

/-- A world in which every external command succeeds. -/
def okWorld : World := { run := fun _ => ⟨0, ""⟩ }

/-- A world in which the docker pull for api:release fails. -/
def pullFailWorld : World :=
  { run := fun c =>
      if c = "docker pull ghcr.io/robertjshirts/api:release" then ⟨1, "no such image"⟩
      else ⟨0, ""⟩ }

/-- An authorized, fully valid update request for api:release. -/
def authedReq : Req :=
  { method := "POST", url := "http://example.com/update", pathname := "/update",
    protocol := "http:", host := "example.com", searchParams := [],
    headers := [("authorization", "secret"), ("content-type", "application/json")],
    hasBody := true,
    bodyText := "\x7b\"service\":\"api\",\"tag\":\"release\"\x7d",
    jsonResult := .ok (.obj [("service", .str "api"), ("tag", .str "release")]),
    formResult := .ok [] }

/-- An unauthorized POST with a JSON content type whose body does not
parse: serializing its request info throws. -/
def throwReq : Req :=
  { method := "POST", url := "http://example.com/update", pathname := "/update",
    protocol := "http:", host := "example.com", searchParams := [],
    headers := [("authorization", "wrong"), ("content-type", "application/json")],
    hasBody := true, bodyText := "not json",
    jsonResult := .error "Unexpected token o in JSON at position 1",
    formResult := .error "not form data" }

/-- An unauthorized GET (no body is parsed, so its request info
serializes fine). -/
def badAuthGetReq : Req :=
  { method := "GET", url := "http://example.com/update?source=ci",
    pathname := "/update", protocol := "http:", host := "example.com",
    searchParams := [("source", "ci")],
    headers := [("authorization", "wrong")],
    hasBody := false, bodyText := "",
    jsonResult := .error "Unexpected end of JSON input",
    formResult := .error "no body" }

/-- An authorized request whose service field is present but empty. -/
def falsyFieldReq : Req :=
  { method := "POST", url := "http://example.com/update", pathname := "/update",
    protocol := "http:", host := "example.com", searchParams := [],
    headers := [("authorization", "secret"), ("content-type", "application/json")],
    hasBody := true,
    bodyText := "\x7b\"service\":\"\",\"tag\":\"release\"\x7d",
    jsonResult := .ok (.obj [("service", .str ""), ("tag", .str "release")]),
    formResult := .ok [] }

/-- A health-check request (no auth header at all). -/
def healthReq : Req :=
  { method := "GET", url := "http://example.com/health", pathname := "/health",
    protocol := "http:", host := "example.com", searchParams := [],
    headers := [], hasBody := false, bodyText := "",
    jsonResult := .error "Unexpected end of JSON input",
    formResult := .error "no body" }

/-! ## Claims -/

/-- C1: for every incoming request the handler applies its checks in the
fixed order health-check, auth header, body presence, JSON parse,
required fields, service allow-list, tag allow-list, pull command,
restart command, success: its outcome and effect trace are exactly those
of the first stopping step of the spec's step cascade, so the outcome is
determined by the first failing step and no later step runs (in the two
throwing corner cases the failing step's outcome is a thrown error rather
than a response). -/
theorem c1_fixed_order_first_failure (cfg : Config) (w : World) (now : String)
    (req : Req) :
    handler cfg w now req =
      (stepOutcome cfg req (firstStop cfg w req), specEffects cfg w now req) :=
  handler_decomp cfg w now req

/-- C7: a request whose pathname is "/health" gets 200 "OK" immediately,
with an empty effect trace (no log write, no console output, no external
command), independently of headers, configuration and command outcomes. -/
theorem c7_health_short_circuit (cfg : Config) (w : World) (now : String)
    (req : Req) (hp : req.pathname = "/health") :
    handler cfg w now req = (.ok ⟨"OK", 200⟩, []) := by
  unfold handler
  simp [hp]

/-- Witness for C7 at the concrete health-check request. -/
theorem c7_health_short_circuit_witness :
    handler testConfig okWorld "T" healthReq = (.ok ⟨"OK", 200⟩, []) :=
  c7_health_short_circuit testConfig okWorld "T" healthReq rfl

/-- C8: every log write the handler or the Logger class performs carries
the append option, and running any handler trace leaves the prior log
contents as a prefix: entries are only added at the end, never truncated
or overwritten. -/
theorem c8_log_appends_only (cfg : Config) (w : World) (now : String) (req : Req)
    (file init : String) (lg : Logger) (m1 m2 : String) :
    appendOnly (handler cfg w now req).2 = true ∧
    (∃ s, runLog file init (handler cfg w now req).2 = init ++ s) ∧
    appendOnly (lg.logEffects now m1) = true ∧
    appendOnly (lg.errorEffects now m2) = true ∧
    (∃ s, runLog file init (lg.logEffects now m1 ++ lg.errorEffects now m2) = init ++ s) := by
  have hlog : appendOnly (lg.logEffects now m1) = true := by
    cases h : lg.logFile <;> simp [Logger.logEffects, h, appendOnly, appendOnlyEffect]
  have herr : appendOnly (lg.errorEffects now m2) = true := by
    cases h : lg.logFile <;> simp [Logger.errorEffects, h, appendOnly, appendOnlyEffect]
  refine ⟨appendOnly_handler cfg w now req,
    runLog_extends file _ (appendOnly_handler cfg w now req) init,
    hlog, herr, runLog_extends file _ ?_ init⟩
  rw [appendOnly, List.all_append, Bool.and_eq_true]
  exact ⟨hlog, herr⟩

/-- A count that is 1 or 0 is at most 1. -/
theorem ite_one_zero_le_one (c : Prop) [Decidable c] : (if c then 1 else 0) ≤ 1 := by
  split <;> simp

/-- C2 (amended): whenever the handler itself returns a response its
status is one of 200, 400, 404 and 500, with 404 only on a failed auth
check, 500 only on a failed external command, 400 only on
malformed/invalid input and 200 only for the health check or full
success; each of the two external commands is invoked at most once (no
retries).  The amendment: the handler may instead throw and return no
response, namely when an auth-failing request's info serialization
throws, or when an authenticated request's JSON body is null. -/
theorem c2_status_codes (cfg : Config) (w : World) (now : String) (req : Req) :
    (∀ resp : Response, (handler cfg w now req).1 = .ok resp →
      (resp.status = 200 ∨ resp.status = 400 ∨ resp.status = 404 ∨ resp.status = 500) ∧
      (resp.status = 404 → req.pathname ≠ "/health" ∧
        getHeader req "Authorization" ≠ some cfg.authKey) ∧
      (resp.status = 500 →
        (resp.body = "Docker pull failed" ∧ (w.run (pullCmdOf req)).code ≠ 0) ∨
        (resp.body = "Docker compose restart failed" ∧
          (w.run (pullCmdOf req)).code = 0 ∧ (w.run (restartCmdOf req)).code ≠ 0)) ∧
      (resp.status = 400 →
        req.hasBody = false ∨ (∃ e, req.jsonResult = .error e) ∨
        (∃ b, req.jsonResult = .ok b ∧
          (optTruthy (jsGet b "service") = false ∨ optTruthy (jsGet b "tag") = false ∨
           includesVal (acceptedServices cfg) (jsGet b "service") = false ∨
           includesVal ACCEPTED_TAGS (jsGet b "tag") = false))) ∧
      (resp.status = 200 → req.pathname = "/health" ∨ resp.body = "Success")) ∧
    (∀ e, (handler cfg w now req).1 = .error e →
      (getHeader req "Authorization" ≠ some cfg.authKey ∧
        (∃ m, getRequestInfo req = .error m)) ∨
      req.jsonResult = .ok Json.null) ∧
    ((handler cfg w now req).2.countP
        (fun eff => eff == Effect.runCommand (pullCmdOf req)) ≤ 1 ∧
     (handler cfg w now req).2.countP
        (fun eff => eff == Effect.runCommand (restartCmdOf req)) ≤ 1) := by
  have hpr := pullCmd_ne_restartCmd req
  unfold handler
  by_cases h1 : req.pathname = "/health"
  · simp [h1, List.countP_nil]
  · by_cases h2 : getHeader req "Authorization" = some cfg.authKey
    · by_cases h3 : req.hasBody
      · cases hjson : req.jsonResult with
        | error e =>
            simp [h1, h2, h3, hjson, List.countP_cons, List.countP_nil, ite_one_zero_le_one]
        | ok body =>
            by_cases h4 : body.isNull = true
            · have hb : body = Json.null := (Json.isNull_iff body).mp h4
              simp [h1, h2, h3, hjson, hb, Json.isNull]
            · by_cases h5 : (!optTruthy (jsGet body "service") || !optTruthy (jsGet body "tag")) = true
              · have h5d : optTruthy (jsGet body "service") = false ∨
                    optTruthy (jsGet body "tag") = false := by
                  simpa [Bool.or_eq_true, Bool.not_eq_true'] using h5
                simp [h1, h2, h3, h4, hjson, h5, List.countP_cons, List.countP_nil, ite_one_zero_le_one]
                tauto
              · simp only [Bool.or_eq_true, Bool.not_eq_true', not_or, Bool.not_eq_false] at h5
                by_cases h6 : includesVal (acceptedServices cfg) (jsGet body "service")
                · by_cases h7 : includesVal ACCEPTED_TAGS (jsGet body "tag")
                  · by_cases h8 : (w.run (pullCmdOf req)).code = 0
                    all_goals
                      simp only [pullCmdOf, restartCmdOf, composeFileOf, serviceText,
                        tagText, serviceField, tagField, bodyOf, hjson] at h8
                    · by_cases h9 : (w.run (restartCmdOf req)).code = 0
                      all_goals
                        simp only [pullCmdOf, restartCmdOf, composeFileOf, serviceText,
                          tagText, serviceField, tagField, bodyOf, hjson] at h9
                      all_goals
                        simp only [pullCmdOf, restartCmdOf, composeFileOf, serviceText,
                          tagText, serviceField, tagField, bodyOf, hjson] at hpr
                      · simp [h1, h2, h3, h4, h5.1, h5.2, h6, h7, h8, h9, hjson,
                          List.countP_cons, List.countP_nil, ite_one_zero_le_one, hpr, Ne.symm hpr,
                          pullCmdOf, restartCmdOf, composeFileOf, serviceText,
                          tagText, serviceField, tagField, bodyOf]
                      · simp [h1, h2, h3, h4, h5.1, h5.2, h6, h7, h8, h9, hjson,
                          List.countP_cons, List.countP_nil, ite_one_zero_le_one, hpr, Ne.symm hpr,
                          pullCmdOf, restartCmdOf, composeFileOf, serviceText,
                          tagText, serviceField, tagField, bodyOf]
                    · simp [h1, h2, h3, h4, h5.1, h5.2, h6, h7, h8, hjson,
                        List.countP_cons, List.countP_nil, ite_one_zero_le_one, hpr, Ne.symm hpr,
                        pullCmdOf, restartCmdOf, composeFileOf, serviceText,
                        tagText, serviceField, tagField, bodyOf]
                  · simp [h1, h2, h3, h4, h5.1, h5.2, h6, h7, hjson,
                      List.countP_cons, List.countP_nil, ite_one_zero_le_one]
                · simp [h1, h2, h3, h4, h5.1, h5.2, h6, hjson,
                    List.countP_cons, List.countP_nil, ite_one_zero_le_one]
      · simp [h1, h2, h3, List.countP_cons, List.countP_nil, ite_one_zero_le_one]
    · cases hinfo : getRequestInfo req with
      | error e => simp [h1, h2, hinfo, List.countP_nil]
      | ok info => simp [h1, h2, hinfo, List.countP_cons, List.countP_nil, ite_one_zero_le_one]

/-- Witness for C2 at a fully successful concrete request. -/
theorem c2_status_codes_witness :
    (200 = 200 ∨ 200 = 400 ∨ 200 = 404 ∨ 200 = 500) :=
  ((c2_status_codes testConfig okWorld "T" authedReq).1 ⟨"Success", 200⟩ rfl).1

/-- C2 counterexample: an unauthorized POST with a JSON content type and
an unparsable body makes the handler throw, so it returns no response at
all (the claim says every request gets one of the four statuses, with 404
on failed auth). -/
theorem c2_counterexample :
    (throwReq.pathname == "/health") = false ∧
    (getHeader throwReq "Authorization" == some testConfig.authKey) = false ∧
    (handler testConfig okWorld "T" throwReq).1.isOk = false :=
  ⟨rfl, rfl, rfl⟩

/-- The first stopping step does stop (`success` always stops, so the
search never comes back empty). -/
theorem stepStops_firstStop (cfg : Config) (w : World) (req : Req) :
    stepStops cfg w req (firstStop cfg w req) = true := by
  unfold firstStop
  cases h : List.find? (stepStops cfg w req) stepOrder with
  | none =>
      rw [List.find?_eq_none] at h
      exact absurd (by simp [stepStops]) (h .success (by simp [stepOrder]))
  | some s =>
      simpa using List.find?_some h

/-- The conditions under which a request passes every check before the
external commands: not the health path, authorized, body present and
parsed, both fields truthy, service and tag allow-listed. -/
def passesValidation (cfg : Config) (req : Req) : Prop :=
  req.pathname ≠ "/health" ∧
  getHeader req "Authorization" = some cfg.authKey ∧
  req.hasBody = true ∧
  ∃ b, req.jsonResult = .ok b ∧
    optTruthy (jsGet b "service") = true ∧ optTruthy (jsGet b "tag") = true ∧
    includesVal (acceptedServices cfg) (jsGet b "service") = true ∧
    includesVal ACCEPTED_TAGS (jsGet b "tag") = true

/-- C3: for every request that passes validation, the pull command is the
first effect; the restart command is invoked iff the pull exits 0; a
nonzero pull exit yields 500 "Docker pull failed" with no restart, a zero
pull followed by a nonzero restart yields 500 "Docker compose restart
failed", and two zero exits yield 200 with exactly the two commands run. -/
theorem c3_pull_then_restart (cfg : Config) (w : World) (now : String) (req : Req)
    (h : passesValidation cfg req) :
    ((handler cfg w now req).2.head? = some (.runCommand (pullCmdOf req))) ∧
    (Effect.runCommand (restartCmdOf req) ∈ (handler cfg w now req).2 ↔
      (w.run (pullCmdOf req)).code = 0) ∧
    ((w.run (pullCmdOf req)).code ≠ 0 →
      (handler cfg w now req).1 = .ok ⟨"Docker pull failed", 500⟩) ∧
    ((w.run (pullCmdOf req)).code = 0 → (w.run (restartCmdOf req)).code ≠ 0 →
      (handler cfg w now req).1 = .ok ⟨"Docker compose restart failed", 500⟩) ∧
    ((w.run (pullCmdOf req)).code = 0 → (w.run (restartCmdOf req)).code = 0 →
      handler cfg w now req = (.ok ⟨"Success", 200⟩,
        [.runCommand (pullCmdOf req), .runCommand (restartCmdOf req)])) := by
  obtain ⟨h1, h2, h3, b, hjson, hs, ht, hsv, htv⟩ := h
  have hpr := pullCmd_ne_restartCmd req
  have hb : b.isNull = false := by
    cases b <;> first | rfl | (exfalso; simp [jsGet, optTruthy] at hs)
  rw [handler_decomp cfg w now req]
  by_cases h8 : (w.run (pullCmdOf req)).code = 0
  · by_cases h9 : (w.run (restartCmdOf req)).code = 0
    · simp [firstStop, specEffects, stepOrder, stepStops, stepOutcome, stepStopEffects,
        execEffects, bodyOf, hjson, serviceField, tagField, h1, h2, h3, hb, hs, ht,
        hsv, htv, h8, h9, hpr, Ne.symm hpr]
    · simp [firstStop, specEffects, stepOrder, stepStops, stepOutcome, stepStopEffects,
        execEffects, bodyOf, hjson, serviceField, tagField, h1, h2, h3, hb, hs, ht,
        hsv, htv, h8, h9, hpr, Ne.symm hpr]
  · simp [firstStop, specEffects, stepOrder, stepStops, stepOutcome, stepStopEffects,
      execEffects, bodyOf, hjson, serviceField, tagField, h1, h2, h3, hb, hs, ht,
      hsv, htv, h8, hpr, Ne.symm hpr]

/-- Witness for C3: the fully valid request in the all-success world. -/
theorem c3_pull_then_restart_witness :
    handler testConfig okWorld "TW" authedReq =
      (.ok ⟨"Success", 200⟩,
       [.runCommand (pullCmdOf authedReq), .runCommand (restartCmdOf authedReq)]) := by
  have h := c3_pull_then_restart testConfig okWorld "TW" authedReq
    ⟨by decide, rfl, rfl,
     ⟨.obj [("service", .str "api"), ("tag", .str "release")], rfl, rfl, rfl, rfl, rfl⟩⟩
  exact h.2.2.2.2 rfl rfl

/-- C4 (amended): for a non-health request, processing continues past the
authentication step iff the Authorization header equals AUTH_KEY; on a
mismatch the handler logs the request info and returns 404 "Not found"
whenever that info serializes, and throws (returning no response) when
the serialization itself throws. -/
theorem c4_auth_gate (cfg : Config) (w : World) (now : String) (req : Req)
    (hp : req.pathname ≠ "/health") :
    (firstStop cfg w req ≠ .health) ∧
    (firstStop cfg w req ≠ .auth ↔ getHeader req "Authorization" = some cfg.authKey) ∧
    (getHeader req "Authorization" ≠ some cfg.authKey →
      (∀ info, getRequestInfo req = .ok info →
        handler cfg w now req =
          (.ok ⟨"Not found", 404⟩,
           [.logWrite cfg.logFile
              ("[" ++ now ++ "] Unauthorized request (404): " ++
                stringify2 (requestInfoToJson info) ++ "\n") true])) ∧
      (∀ e, getRequestInfo req = .error e →
        handler cfg w now req = (.error e, []))) := by
  refine ⟨?_, ⟨?_, ?_⟩, ?_⟩
  · intro hcontra
    have := stepStops_firstStop cfg w req
    rw [hcontra] at this
    simp [stepStops, hp] at this
  · intro hne
    by_contra hkey
    apply hne
    have hh : stepStops cfg w req .health = false := by simp [stepStops, hp]
    have ha : stepStops cfg w req .auth = true := by simp [stepStops, hkey]
    simp [firstStop, stepOrder, hh, ha]
  · intro hkey hcontra
    have := stepStops_firstStop cfg w req
    rw [hcontra] at this
    simp [stepStops, hkey] at this
  · intro hkey
    constructor
    · intro info hinfo
      unfold handler
      simp [hp, hkey, hinfo]
    · intro e he
      unfold handler
      simp [hp, hkey, he]

/-- Witness for C4: at a concrete unauthorized GET, the auth step is the
first stopping step, so the iff is exercised in both directions. -/
theorem c4_auth_gate_witness :
    handler testConfig okWorld "T" badAuthGetReq =
      (.ok ⟨"Not found", 404⟩,
       [.logWrite testConfig.logFile
          ("[" ++ "T" ++ "] Unauthorized request (404): " ++
            stringify2 (requestInfoToJson
              { method := "GET", url := "http://example.com/update?source=ci",
                path := "/update", queryParams := [("source", "ci")],
                headers := [("authorization", "wrong")], body := .nullBody,
                protocol := "http:", host := "example.com" }) ++ "\n") true]) := by
  have h := c4_auth_gate testConfig okWorld "T" badAuthGetReq (by decide)
  exact (h.2.2 (by decide)).1 _ rfl

/-- C4 counterexample: an unauthorized POST with a JSON content type and
an unparsable body: the handler neither continues nor returns the 404
"Not found" response, it throws (no response at all). -/
theorem c4_counterexample :
    (throwReq.pathname == "/health") = false ∧
    (getHeader throwReq "Authorization" == some testConfig.authKey) = false ∧
    (handler testConfig pullFailWorld "T" throwReq).1.isOk = false ∧
    (handler testConfig pullFailWorld "T" throwReq).1 =
      .error "Failed to parse request: Unexpected token o in JSON at position 1" :=
  ⟨rfl, rfl, rfl, rfl⟩

/-- C5: for an authenticated request whose body parsed and has truthy
service and tag fields, the service is accepted iff it is the name of a
services-directory entry that was a directory at startup; any other
service value yields the 400 response listing the accepted services, and
an accepted service moves processing past the service allow-list step. -/
theorem c5_service_allow_list (cfg : Config) (w : World) (now : String) (req : Req)
    (b : Json)
    (hp : req.pathname ≠ "/health")
    (ha : getHeader req "Authorization" = some cfg.authKey)
    (hb : req.hasBody = true)
    (hj : req.jsonResult = .ok b)
    (hs : optTruthy (jsGet b "service") = true)
    (ht : optTruthy (jsGet b "tag") = true) :
    (includesVal (acceptedServices cfg) (jsGet b "service") = true ↔
      ∃ e ∈ cfg.dirEntries, e.isDirectory = true ∧
        jsGet b "service" = some (.str e.name)) ∧
    (includesVal (acceptedServices cfg) (jsGet b "service") = false →
      handler cfg w now req =
        (.ok ⟨"Service must be one of " ++ joinComma (acceptedServices cfg), 400⟩,
         [.logWrite cfg.logFile
            ("[" ++ now ++ "] Invalid service requested (400): " ++
              jsOptToString (jsGet b "service") ++ ". Accepted services: " ++
              joinComma (acceptedServices cfg) ++ "\n") true])) ∧
    (includesVal (acceptedServices cfg) (jsGet b "service") = true →
      firstStop cfg w req ≠ .serviceAllow) := by
  have hnull : b.isNull = false := by
    cases b <;> first | rfl | (exfalso; simp [jsGet, optTruthy] at hs)
  refine ⟨?_, ?_, ?_⟩
  · cases hv : jsGet b "service" with
    | none => rw [hv] at hs; simp [optTruthy] at hs
    | some v =>
        cases v <;>
          simp [includesVal, acceptedServices, List.mem_map, List.mem_filter]
        constructor
        · rintro ⟨e, he, hn⟩
          exact ⟨e, he.1, he.2, hn.symm⟩
        · rintro ⟨e, he, hd, hn⟩
          exact ⟨e, ⟨he, hd⟩, hn.symm⟩
  · intro hsv
    unfold handler
    have hor : (!optTruthy (jsGet b "service") || !optTruthy (jsGet b "tag")) = false := by
      simp [hs, ht]
    simp [hp, ha, hb, hj, hnull, hs, ht, hsv, hor]
  · intro hsv hcontra
    have := stepStops_firstStop cfg w req
    rw [hcontra] at this
    simp [stepStops, serviceField, bodyOf, hj, hsv] at this

/-- Witness for C5 at the concrete valid request: "api" is accepted
because it is a directory entry of the startup listing. -/
theorem c5_service_allow_list_witness :
    ∃ e ∈ testConfig.dirEntries, e.isDirectory = true ∧
      jsGet (.obj [("service", .str "api"), ("tag", .str "release")]) "service" =
        some (.str e.name) := by
  have h := c5_service_allow_list testConfig okWorld "T" authedReq
    (.obj [("service", .str "api"), ("tag", .str "release")])
    (by decide) rfl rfl rfl rfl rfl
  exact h.1.mp rfl

/-- C6: for an authenticated request with a well-formed body and an
accepted service, the tag is accepted iff its value is the string
"release" or the string "main" (the fixed ACCEPTED_TAGS list); any other
tag value yields the 400 tag response, and an accepted tag moves
processing past the tag allow-list step. -/
theorem c6_tag_allow_list (cfg : Config) (w : World) (now : String) (req : Req)
    (b : Json)
    (hp : req.pathname ≠ "/health")
    (ha : getHeader req "Authorization" = some cfg.authKey)
    (hb : req.hasBody = true)
    (hj : req.jsonResult = .ok b)
    (hs : optTruthy (jsGet b "service") = true)
    (ht : optTruthy (jsGet b "tag") = true)
    (hsv : includesVal (acceptedServices cfg) (jsGet b "service") = true) :
    (includesVal ACCEPTED_TAGS (jsGet b "tag") = true ↔
      (jsGet b "tag" = some (.str "release") ∨ jsGet b "tag" = some (.str "main"))) ∧
    (includesVal ACCEPTED_TAGS (jsGet b "tag") = false →
      handler cfg w now req =
        (.ok ⟨"Tag must be one of " ++ joinComma ACCEPTED_TAGS ++
            ". Did you forget to update the code and redeploy it?", 400⟩,
         [.logWrite cfg.logFile
            ("[" ++ now ++ "] Invalid tag requested (400): " ++
              jsOptToString (jsGet b "tag") ++ ". Accepted tags: " ++
              joinComma ACCEPTED_TAGS ++ "\n") true])) ∧
    (includesVal ACCEPTED_TAGS (jsGet b "tag") = true →
      firstStop cfg w req ≠ .tagAllow) := by
  have hnull : b.isNull = false := by
    cases b <;> first | rfl | (exfalso; simp [jsGet, optTruthy] at hs)
  refine ⟨?_, ?_, ?_⟩
  · cases hv : jsGet b "tag" with
    | none => rw [hv] at ht; simp [optTruthy] at ht
    | some v =>
        cases v <;> simp [includesVal, ACCEPTED_TAGS]
  · intro htv
    unfold handler
    have hor : (!optTruthy (jsGet b "service") || !optTruthy (jsGet b "tag")) = false := by
      simp [hs, ht]
    simp [hp, ha, hb, hj, hnull, hs, ht, hsv, htv, hor]
  · intro htv hcontra
    have := stepStops_firstStop cfg w req
    rw [hcontra] at this
    simp [stepStops, tagField, bodyOf, hj, htv] at this

/-- Witness for C6 at the concrete valid request: "release" is accepted. -/
theorem c6_tag_allow_list_witness :
    jsGet (.obj [("service", .str "api"), ("tag", .str "release")]) "tag" =
        some (.str "release") ∨
    jsGet (.obj [("service", .str "api"), ("tag", .str "release")]) "tag" =
        some (.str "main") := by
  have h := c6_tag_allow_list testConfig okWorld "T" authedReq
    (.obj [("service", .str "api"), ("tag", .str "release")])
    (by decide) rfl rfl rfl rfl rfl rfl
  exact h.1.mp rfl

/-- C9: for an authenticated request whose body parses as a JSON object
in which the service or tag field is present with a falsy value (empty
string, 0, false or null), the handler returns 400 "Missing service or
tag in body" — the same response the absent-field case produces — the
field-presence step is the stopping step, and no external command is
invoked. -/
theorem c9_falsy_field_like_missing (cfg : Config) (w : World) (now : String)
    (req : Req) (fs : List (String × Json))
    (hp : req.pathname ≠ "/health")
    (ha : getHeader req "Authorization" = some cfg.authKey)
    (hb : req.hasBody = true)
    (hj : req.jsonResult = .ok (.obj fs))
    (hfalsy : (∃ v, jsGet (.obj fs) "service" = some v ∧ jsTruthy v = false) ∨
              (∃ v, jsGet (.obj fs) "tag" = some v ∧ jsTruthy v = false)) :
    (handler cfg w now req).1 = .ok ⟨"Missing service or tag in body", 400⟩ ∧
    (∀ c, Effect.runCommand c ∉ (handler cfg w now req).2) ∧
    firstStop cfg w req = .fieldPresence := by
  have hor : (!optTruthy (jsGet (Json.obj fs) "service") ||
      !optTruthy (jsGet (Json.obj fs) "tag")) = true := by
    rcases hfalsy with ⟨v, hv, hf⟩ | ⟨v, hv, hf⟩ <;>
      simp [hv, optTruthy, hf]
  refine ⟨?_, ?_, ?_⟩
  · unfold handler
    simp [hp, ha, hb, hj, Json.isNull, hor]
  · intro c
    unfold handler
    simp [hp, ha, hb, hj, Json.isNull, hor]
  · have hh : stepStops cfg w req .health = false := by simp [stepStops, hp]
    have hau : stepStops cfg w req .auth = false := by simp [stepStops, ha]
    have hbp : stepStops cfg w req .bodyPresence = false := by simp [stepStops, hb]
    have hjp : stepStops cfg w req .jsonParse = false := by simp [stepStops, hj]
    have hfp : stepStops cfg w req .fieldPresence = true := by
      simp [stepStops, bodyOf, hj, serviceField, tagField, Json.isNull, hor]
    simp [firstStop, stepOrder, hh, hau, hbp, hjp, hfp]

/-- Witness for C9 at the concrete request whose service field is the
empty string. -/
theorem c9_falsy_field_like_missing_witness :
    (handler testConfig okWorld "T" falsyFieldReq).1 =
      .ok ⟨"Missing service or tag in body", 400⟩ := by
  have h := c9_falsy_field_like_missing testConfig okWorld "T" falsyFieldReq
    [("service", .str ""), ("tag", .str "release")]
    (by decide) rfl rfl rfl (Or.inl ⟨.str "", rfl, rfl⟩)
  exact h.1

/-- C10 (amended): for every auth-failing request whose request info
serializes, the full serialized info — method, URL, query parameters and
all header pairs, the supplied Authorization value among them — is
written (append) to the log file in the single log entry emitted before
the 404 response; when the serialization throws (e.g. an unparsable JSON
body), the handler throws without writing anything. -/
theorem c10_unauthorized_request_logged (cfg : Config) (w : World) (now : String)
    (req : Req)
    (hp : req.pathname ≠ "/health")
    (ha : getHeader req "Authorization" ≠ some cfg.authKey) :
    (∀ info, getRequestInfo req = .ok info →
      info.method = req.method ∧ info.url = req.url ∧
      info.queryParams = fromEntries req.searchParams ∧
      info.headers = req.headers ∧
      handler cfg w now req =
        (.ok ⟨"Not found", 404⟩,
         [.logWrite cfg.logFile
            ("[" ++ now ++ "] Unauthorized request (404): " ++
              stringify2 (requestInfoToJson info) ++ "\n") true])) ∧
    (∀ e, getRequestInfo req = .error e →
      handler cfg w now req = (.error e, [])) := by
  constructor
  · intro info hinfo
    have hfields : info.method = req.method ∧ info.url = req.url ∧
        info.queryParams = fromEntries req.searchParams ∧
        info.headers = req.headers := by
      unfold getRequestInfo at hinfo
      cases hib : infoBodyOf req with
      | error m => rw [hib] at hinfo; cases hinfo
      | ok bb =>
          rw [hib] at hinfo
          simp only [Except.ok.injEq] at hinfo
          subst hinfo
          exact ⟨rfl, rfl, rfl, rfl⟩
    refine ⟨hfields.1, hfields.2.1, hfields.2.2.1, hfields.2.2.2, ?_⟩
    unfold handler
    simp [hp, ha, hinfo]
  · intro e he
    unfold handler
    simp [hp, ha, he]

/-- Witness for C10 at the concrete unauthorized GET request. -/
theorem c10_unauthorized_request_logged_witness :
    handler testConfig okWorld "T" badAuthGetReq =
      (.ok ⟨"Not found", 404⟩,
       [.logWrite testConfig.logFile
          ("[" ++ "T" ++ "] Unauthorized request (404): " ++
            stringify2 (requestInfoToJson
              { method := "GET", url := "http://example.com/update?source=ci",
                path := "/update", queryParams := [("source", "ci")],
                headers := [("authorization", "wrong")], body := .nullBody,
                protocol := "http:", host := "example.com" }) ++ "\n") true]) := by
  have h := c10_unauthorized_request_logged testConfig okWorld "T" badAuthGetReq
    (by decide) (by decide)
  exact (h.1 _ rfl).2.2.2.2

/-- C10 counterexample: an unauthorized POST with a JSON content type and
an unparsable body: the handler performs no log write at all (its effect
trace is empty) and returns no 404 — it throws. -/
theorem c10_counterexample :
    (getHeader throwReq "Authorization" == some testConfig.authKey) = false ∧
    (handler testConfig okWorld "TX" throwReq).2 = [] ∧
    (handler testConfig okWorld "TX" throwReq).1.isOk = false :=
  ⟨rfl, rfl, rfl⟩

end UpdateService
